import Mathlib

/-!
Verification of the sharding/replication verification module of the
clickhouse-0-hero repository, embedded from `src/backend/server.js`
(the `POST /api/cluster/insert-and-route` handler, lines 484-514, and the
`POST /api/cluster/replicate-demo` handler, lines 549-571).

JavaScript numbers and 32-bit integer operations are modelled over `Nat`
with explicit reduction modulo `2^32`; the signed 32-bit accumulator of
`Math.imul(31, h) + c | 0` is represented by its unsigned residue modulo
`2^32`, which `BigInt.asUintN(32, ...)` reads back directly.  Network
operations (the insert and the per-node count queries) are modelled as
`Except String` values supplied to the handler, mirroring promise
resolution or rejection; `Promise.all` rejection and the surrounding
`try/catch` become propagation of the `Except.error` case.
-/

namespace ClickhouseZeroHero

/-- Display name of node 1 as used by the handlers (server.js line 491). -/
def node1Name : String := "node1 (shard 01)"

/-- Display name of node 2 as used by the handlers (server.js line 491). -/
def node2Name : String := "node2 (shard 02)"

/-- `2^32`, the modulus of all 32-bit arithmetic in the embedding. -/
def U32 : Nat := 4294967296

/-- One step of the shard-key hash of server.js line 488:
`Math.imul(31, h) + c.charCodeAt(0) | 0`, with the signed 32-bit
accumulator represented by its residue modulo `2^32`. -/
def hashStep (h c : Nat) : Nat := (31 * h + c) % U32

/-- The shard-key hash computed by `POST /api/cluster/insert-and-route`
(server.js lines 486-490):
`user_id.split('').reduce((h, c) => Math.imul(31, h) + c.charCodeAt(0) | 0, 0)`
wrapped in `BigInt.asUintN(32, ...)` and parsed back, i.e. a Java-style
31-multiplier polynomial hash of the character codes, reduced to an
unsigned 32-bit value.  Characters are taken as code points, which agrees
with JavaScript UTF-16 code units on all keys used here. -/
def hash (s : String) : Nat := s.data.foldl (fun h c => hashStep h c.toNat) 0

/-- The expected shard of server.js line 491:
`(hash % 2 === 0) ? 'node2 (shard 02)' : 'node1 (shard 01)'`. -/
def expectedShard (uid : String) : String :=
  if hash uid % 2 = 0 then node2Name else node1Name

/-- The `shardKey` label of the response (server.js line 512):
the template string `murmurHash3_32("${user_id}")`. -/
def shardKeyLabel (uid : String) : String :=
  "murmurHash3_32(\"" ++ uid ++ "\")"

/-- Zero-based index of a shard from its node display name, with the nodes
listed in configuration order (node1 = shard 01 first, node2 = shard 02
second).  Spec-side vocabulary used to compare the router against the
claim that the shard index is `hash mod shardCount`. -/
def shardIndexOf (n : String) : Nat := if n = node1Name then 0 else 1

/-- `user_id` defaulting of server.js line 485:
`const { user_id = 'demo-user' } = req.body` — the default applies only
when the field is absent, not when it is the empty string. -/
def effectiveUserId : Option String → String
  | none => "demo-user"
  | some s => s

/-- `service` defaulting of server.js line 485. -/
def effectiveService : Option String → String
  | none => "frontend"
  | some s => s

/-- The row built by the insert-and-route handler (server.js lines 495-501).
The wall-clock reading behind `new Date()` and the sample behind
`Math.random() * 100` are explicit inputs of the embedding. -/
structure InsertedEventRow where
  timestampMs : Nat
  service : String
  event_type : String
  user_id : String
  valueSample : Nat
deriving DecidableEq

/-- Constructs the inserted row from the ambient clock and random sample
(server.js lines 495-501). -/
def insertedEventRow (uid svc : String) (nowMs randSample : Nat) : InsertedEventRow :=
  { timestampMs := nowMs
    service := svc
    event_type := "demo_insert"
    user_id := uid
    valueSample := randSample }

/-- The JSON body of a successful insert-and-route response
(server.js line 512). -/
structure InsertRouteResponse where
  user_id : String
  service : String
  shardKey : String
  expectedShard : String
  actualShard : String
  node1Rows : Nat
  node2Rows : Nat
deriving DecidableEq

/-- Builds the insert-and-route response from the two observed per-node
counts (server.js lines 509-512); `actualShard` is
`shard1 > 0 ? 'node1 (shard 01)' : 'node2 (shard 02)'` (line 511). -/
def mkInsertRouteResponse (uid svc : String) (shard1 shard2 : Nat) : InsertRouteResponse :=
  { user_id := uid
    service := svc
    shardKey := shardKeyLabel uid
    expectedShard := expectedShard uid
    actualShard := if 0 < shard1 then node1Name else node2Name
    node1Rows := shard1
    node2Rows := shard2 }

/-- The `POST /api/cluster/insert-and-route` handler (server.js lines
484-514).  `insert` is the outcome of `ch_node1.insert` as a function of
the row written; `q1` and `q2` are the outcomes of the two per-node count
queries issued through `Promise.all` (lines 505-508).  Any rejection is
caught by the surrounding `try/catch` and becomes an error response
(line 513), modelled as `Except.error`. -/
def insertAndRouteHandler (body_uid body_svc : Option String) (nowMs randSample : Nat)
    (insert : InsertedEventRow → Except String Unit)
    (q1 q2 : Except String Nat) : Except String InsertRouteResponse :=
  match insert (insertedEventRow (effectiveUserId body_uid) (effectiveService body_svc)
      nowMs randSample) with
  | .error e => .error e
  | .ok _ =>
    match q1, q2 with
    | .error e, _ => .error e
    | _, .error e => .error e
    | .ok s1, .ok s2 =>
      .ok (mkInsertRouteResponse (effectiveUserId body_uid) (effectiveService body_svc) s1 s2)

/-- The JSON body of a successful replicate-demo response
(server.js lines 563-569). -/
structure ReplicateDemoResponse where
  insertedOnNode : String
  foundOnNode2Before : Nat
  foundOnNode2After : Nat
  replicated : Bool
deriving DecidableEq

/-- Builds the replicate-demo response from the before and after counts
(server.js lines 563-569); `replicated` is `Number(afterCount) > 0`
(line 568). -/
def mkReplicateDemoResponse (beforeCount afterCount : Nat) : ReplicateDemoResponse :=
  { insertedOnNode := "node1 (replica-1)"
    foundOnNode2Before := beforeCount
    foundOnNode2After := afterCount
    replicated := decide (0 < afterCount) }

/-- The `POST /api/cluster/replicate-demo` handler (server.js lines
549-571): insert on node1, count on node2, fixed 1500 ms sleep, count on
node2 again.  Each awaited operation's rejection is caught by the
surrounding `try/catch` and becomes an error response (line 570),
modelled as `Except.error`. -/
def replicateDemoHandler (insert : Except String Unit)
    (qBefore qAfter : Except String Nat) : Except String ReplicateDemoResponse :=
  match insert with
  | .error e => .error e
  | .ok _ =>
    match qBefore with
    | .error e => .error e
    | .ok b =>
      match qAfter with
      | .error e => .error e
      | .ok a => .ok (mkReplicateDemoResponse b a)

/-- Elapsed milliseconds of one replicate-demo invocation, as a function
of the durations of its three awaited network operations: the handler
always sleeps exactly 1500 ms between the before-check and the
after-check (`await new Promise(r => setTimeout(r, 1500))`, server.js
line 560), and exposes no timeout parameter. -/
def replicateDemoElapsedMs (dInsert dBefore dAfter : Nat) : Nat :=
  dInsert + dBefore + 1500 + dAfter

/-- 32-bit rotate left of a value below `2^32`. -/
def rotl32 (x r : Nat) : Nat := ((x <<< r) ||| (x >>> (32 - r))) % U32

/-- Modelled from the spec: the per-block mixing of the reference 32-bit
MurmurHash3 (MurmurHash3_x86_32), the hash named by the spec as the
reference sharding hash; the cluster DDL that applies it
(`Distributed(..., murmurHash3_32(user_id))`) is not present under src/
as executable code. -/
def murmurMixK (k : Nat) : Nat :=
  let k1 := (k * 0xcc9e2d51) % U32
  let k2 := rotl32 k1 15
  (k2 * 0x1b873593) % U32

/-- Modelled from the spec: one body step of MurmurHash3_x86_32. -/
def murmurStep (h k : Nat) : Nat :=
  let h1 := h ^^^ murmurMixK k
  let h2 := rotl32 h1 13
  (h2 * 5 + 0xe6546b64) % U32

/-- Modelled from the spec: the little-endian tail word of
MurmurHash3_x86_32 built from the 1 to 3 trailing bytes. -/
def murmurTailK : List Nat → Nat
  | [] => 0
  | [b0] => b0
  | [b0, b1] => b0 + (b1 <<< 8)
  | b0 :: b1 :: b2 :: _ => b0 + (b1 <<< 8) + (b2 <<< 16)

/-- Modelled from the spec: the finalization mix of MurmurHash3_x86_32. -/
def fmix32 (h : Nat) : Nat :=
  let h1 := h ^^^ (h >>> 16)
  let h2 := (h1 * 0x85ebca6b) % U32
  let h3 := h2 ^^^ (h2 >>> 13)
  let h4 := (h3 * 0xc2b2ae35) % U32
  h4 ^^^ (h4 >>> 16)

/-- Modelled from the spec: the body loop of MurmurHash3_x86_32 over the
byte list, consuming 4-byte little-endian blocks and then mixing in the
tail word. -/
def murmurBody (h : Nat) : List Nat → Nat
  | b0 :: b1 :: b2 :: b3 :: rest =>
      murmurBody (murmurStep h (b0 + (b1 <<< 8) + (b2 <<< 16) + (b3 <<< 24))) rest
  | [] => h
  | tail => h ^^^ murmurMixK (murmurTailK tail)

/-- Modelled from the spec: MurmurHash3_x86_32 of a byte list with a seed. -/
def murmurHash3_x86_32 (bytes : List Nat) (seed : Nat) : Nat :=
  fmix32 (murmurBody seed bytes ^^^ bytes.length)

/-- Modelled from the spec: the reference 32-bit MurmurHash3 of a string,
seed 0, over its UTF-8 bytes; for the ASCII keys considered here the
bytes are exactly the character codes. -/
def murmurHash3_32 (s : String) : Nat :=
  murmurHash3_x86_32 (s.data.map Char.toNat) 0

/-- Sanity anchor for the murmur model: the published reference vector
MurmurHash3_x86_32("hello", 0) = 0x248bfa47, and the empty string hashes
to 0. -/
theorem murmur_reference_vectors :
    murmurHash3_32 "hello" = 0x248bfa47 ∧ murmurHash3_32 "" = 0 := by
  constructor <;> rfl

/-- C1 counterexample: with `beforeCount = 1` and `afterCount = 1` (the
row already visible at the before-check), the handler reports
`replicated = true` although `afterCount > beforeCount` is false — the
flag is not `afterCount > beforeCount`. -/
theorem replicated_flag_ignores_before_count :
    replicateDemoHandler (.ok ()) (.ok 1) (.ok 1)
      = .ok (mkReplicateDemoResponse 1 1)
    ∧ (mkReplicateDemoResponse 1 1).replicated = true
    ∧ ¬ (1 > 1) := by
  refine ⟨rfl, rfl, by decide⟩

/-- C1 (amended): the `replicated` flag of the replicate-demo response is
true iff the after-count is positive (`Number(afterCount) > 0`,
server.js line 568); the before-count is reported but not consulted. -/
theorem replicated_iff_after_count_pos :
    ∀ b a : Nat,
      replicateDemoHandler (.ok ()) (.ok b) (.ok a)
        = .ok (mkReplicateDemoResponse b a)
      ∧ ((mkReplicateDemoResponse b a).replicated = true ↔ 0 < a) := by
  intro b a
  refine ⟨rfl, ?_⟩
  simp [mkReplicateDemoResponse]

/-- C2 (code defect): the hash computed by the insert-and-route handler is
the Java-style 31-polynomial hash, not a 32-bit MurmurHash3: on the
repository's own demo key "user-42" the code computes 4147784640 while
the reference MurmurHash3_x86_32 (validated above against published
vectors) gives 3111312080; on the key "b" the two hashes even differ in
parity, so the predicted shard and the murmur-based actual placement
disagree. -/
theorem hash_is_not_murmurHash3_32 :
    hash "user-42" = 4147784640
    ∧ murmurHash3_32 "user-42" = 3111312080
    ∧ hash "user-42" ≠ murmurHash3_32 "user-42"
    ∧ hash "b" % 2 = 0
    ∧ murmurHash3_32 "b" % 2 = 1 := by
  refine ⟨rfl, rfl, by decide, rfl, rfl⟩

/-- Helper: a successful insert-and-route response carries the expected
shard computed purely from the effective user id. -/
theorem insertAndRouteHandler_ok_expectedShard
    (body_uid body_svc : Option String) (nowMs randSample : Nat)
    (insert : InsertedEventRow → Except String Unit)
    (q1 q2 : Except String Nat) (resp : InsertRouteResponse)
    (h : insertAndRouteHandler body_uid body_svc nowMs randSample insert q1 q2
          = Except.ok resp) :
    resp.expectedShard = expectedShard (effectiveUserId body_uid) := by
  unfold insertAndRouteHandler at h
  split at h
  · exact absurd h (by simp)
  · split at h
    · exact absurd h (by simp)
    · exact absurd h (by simp)
    · cases h
      rfl


/-- C3: the routing decision is deterministic and pure — any two
successful evaluations of the insert-and-route handler on the same shard
key, under arbitrary and different clock readings, random samples,
service fields, insert outcomes and per-node query outcomes, report the
identical expected shard, and that shard is a fixed pure function of the
key alone. -/
theorem routing_deterministic_and_pure
    (body_uid body_svc body_svc' : Option String)
    (nowMs nowMs' randSample randSample' : Nat)
    (insert insert' : InsertedEventRow → Except String Unit)
    (q1 q1' q2 q2' : Except String Nat)
    (resp resp' : InsertRouteResponse)
    (h : insertAndRouteHandler body_uid body_svc nowMs randSample insert q1 q2
          = Except.ok resp)
    (h' : insertAndRouteHandler body_uid body_svc' nowMs' randSample' insert' q1' q2'
          = Except.ok resp') :
    resp.expectedShard = resp'.expectedShard
    ∧ resp.expectedShard = expectedShard (effectiveUserId body_uid) := by
  have e1 := insertAndRouteHandler_ok_expectedShard body_uid body_svc nowMs randSample
    insert q1 q2 resp h
  have e2 := insertAndRouteHandler_ok_expectedShard body_uid body_svc' nowMs' randSample'
    insert' q1' q2' resp' h'
  exact ⟨e1.trans e2.symm, e1⟩

/-- C3 witness: two concrete runs on key "user-42" at different times,
random samples, services and query outcomes agree on the expected shard. -/
theorem routing_deterministic_and_pure_witness :
    (mkInsertRouteResponse "user-42" "frontend" 1 0).expectedShard
      = (mkInsertRouteResponse "user-42" "checkout" 0 3).expectedShard
    ∧ (mkInsertRouteResponse "user-42" "frontend" 1 0).expectedShard
      = expectedShard (effectiveUserId (some "user-42")) :=
  routing_deterministic_and_pure (some "user-42") (some "frontend") (some "checkout")
    11 22 33 44 (fun _ => .ok ()) (fun _ => .ok ())
    (.ok 1) (.ok 0) (.ok 0) (.ok 3)
    (mkInsertRouteResponse "user-42" "frontend" 1 0)
    (mkInsertRouteResponse "user-42" "checkout" 0 3) rfl rfl

/-- C4 counterexample: an empty shard key is not rejected and does not
abort before I/O — with `user_id = ""` the handler reaches the insert
(its outcome surfaces) and, when all operations succeed, returns a
normal routing response whose expected shard is node2 (hash 0 is even);
no InvalidInput error exists. -/
theorem empty_key_routed_not_rejected :
    insertAndRouteHandler (some "") none 0 0 (fun _ => .ok ()) (.ok 0) (.ok 0)
      = .ok (mkInsertRouteResponse "" "frontend" 0 0)
    ∧ (mkInsertRouteResponse "" "frontend" 0 0).expectedShard = node2Name
    ∧ insertAndRouteHandler (some "") none 0 0 (fun _ => .error "insert reached")
        (.ok 0) (.ok 0) = .error "insert reached" := by
  refine ⟨rfl, by decide, rfl⟩

/-- C4 (amended): the handler performs no input validation — an empty
`user_id` is routed like any other key: its hash is 0, which is even, so
the expected shard is node2; only an absent `user_id` field falls back
to the default "demo-user". -/
theorem empty_key_amended_behavior :
    ∀ (body_svc : Option String) (nowMs randSample s1 s2 : Nat),
      insertAndRouteHandler (some "") body_svc nowMs randSample
          (fun _ => .ok ()) (.ok s1) (.ok s2)
        = .ok (mkInsertRouteResponse "" (effectiveService body_svc) s1 s2)
      ∧ hash "" = 0
      ∧ expectedShard "" = node2Name
      ∧ effectiveUserId none = "demo-user" := by
  intro body_svc nowMs randSample s1 s2
  exact ⟨rfl, rfl, by decide, rfl⟩

/-- C5 counterexample: when node1's count query fails while node2's
succeeds with 5 rows, the whole insert-and-route operation aborts with a
single error — node2's observation is not returned and no unreachable
marker appears in any observation list (and symmetrically for node2
failing). -/
theorem node_failure_aborts_insert_and_route :
    insertAndRouteHandler (some "user-42") none 0 0 (fun _ => .ok ())
        (.error "node1 unreachable") (.ok 5) = .error "node1 unreachable"
    ∧ insertAndRouteHandler (some "user-42") none 0 0 (fun _ => .ok ())
        (.ok 5) (.error "node2 unreachable") = .error "node2 unreachable" :=
  ⟨rfl, rfl⟩

/-- C5 (amended): per-node failures are not isolated — `Promise.all`
rejects and the catch block turns the whole operation into one error
response: whichever single node's count query fails, the handler returns
exactly that error and produces no per-node observations. -/
theorem node_failure_error_propagation :
    ∀ (body_uid body_svc : Option String) (nowMs randSample : Nat) (e : String)
      (q2 : Except String Nat) (s1 : Nat),
      insertAndRouteHandler body_uid body_svc nowMs randSample
          (fun _ => .ok ()) (.error e) q2 = .error e
      ∧ insertAndRouteHandler body_uid body_svc nowMs randSample
          (fun _ => .ok ()) (.ok s1) (.error e) = .error e := by
  intro body_uid body_svc nowMs randSample e q2 s1
  cases q2 with
  | error e2 => exact ⟨rfl, rfl⟩
  | ok v => exact ⟨rfl, rfl⟩

/-- C6 counterexample: when node2 is unreachable at the before-check (or
the after-check), the replicate-demo handler returns an error response —
it does not return a result with `replicated = false` and an error
annotation. -/
theorem replicate_demo_unreachable_throws :
    replicateDemoHandler (.ok ()) (.error "node2 unreachable") (.ok 0)
      = .error "node2 unreachable"
    ∧ replicateDemoHandler (.ok ()) (.ok 0) (.error "node2 unreachable")
      = .error "node2 unreachable" :=
  ⟨rfl, rfl⟩

/-- C6 (amended): a failure of the target node at the before-check or the
after-check propagates through the catch block as an error response
(HTTP 400), never as a degraded result: the handler returns exactly the
query's error. -/
theorem replicate_demo_error_propagation :
    ∀ (e : String) (qAfter : Except String Nat) (b : Nat),
      replicateDemoHandler (.ok ()) (.error e) qAfter = .error e
      ∧ replicateDemoHandler (.ok ()) (.ok b) (.error e) = .error e := by
  intro e qAfter b
  exact ⟨rfl, rfl⟩

/-- C7 counterexample: for key "b" the hash is 98, so `hash mod 2 = 0`,
yet the router selects node2 (shard 02), whose zero-based shard index is
1, not 0 — the shard index is not `hash mod shardCount`. -/
theorem shard_index_differs_from_hash_mod :
    hash "b" = 98
    ∧ hash "b" % 2 = 0
    ∧ expectedShard "b" = node2Name
    ∧ shardIndexOf (expectedShard "b") ≠ hash "b" % 2 := by
  refine ⟨rfl, rfl, by decide, by decide⟩

/-- C7 (amended): the shard count is fixed at 2 and the router maps even
hashes to node2 (shard 02) and odd hashes to node1 (shard 01): the
zero-based shard index is `1 - (hash mod 2)`, the complement of
`hash mod 2`. -/
theorem expected_shard_parity_mapping :
    ∀ k : String,
      shardIndexOf (expectedShard k) = 1 - hash k % 2
      ∧ (expectedShard k = node2Name ↔ hash k % 2 = 0) := by
  intro k
  by_cases h : hash k % 2 = 0
  · constructor
    · simp [expectedShard, shardIndexOf, h, node1Name, node2Name]
    · simp [expectedShard, h]
  · have h1 : hash k % 2 = 1 := Nat.mod_two_ne_zero.mp h
    constructor
    · simp [expectedShard, shardIndexOf, h, h1]
    · constructor
      · intro habs
        rw [expectedShard, if_neg h] at habs
        exact absurd habs (by decide)
      · intro h0
        exact absurd h0 h

/-- C8 counterexample: when both nodes report a nonzero count (1 and 1)
for the key, the response's `actualShard` still names the single node
node1 and is identical to the `actualShard` of the clean single-node
case (1 and 0) — the anomaly is silently resolved to one node rather
than surfaced. -/
theorem dual_nonzero_resolved_to_node1 :
    (mkInsertRouteResponse "user-42" "frontend" 1 1).actualShard = node1Name
    ∧ (mkInsertRouteResponse "user-42" "frontend" 1 1).actualShard
      = (mkInsertRouteResponse "user-42" "frontend" 1 0).actualShard := by
  refine ⟨rfl, rfl⟩

/-- C8 (amended): when both nodes hold rows for the key, the raw per-node
counts are both present (and positive) in the response, so the caller
can see the anomaly, but the `actualShard` field resolves to node1 alone
and no anomaly marker exists. -/
theorem dual_nonzero_counts_surfaced
    (uid svc : String) (s1 s2 : Nat) (h1 : 0 < s1) (h2 : 0 < s2) :
    (mkInsertRouteResponse uid svc s1 s2).actualShard = node1Name
    ∧ 0 < (mkInsertRouteResponse uid svc s1 s2).node1Rows
    ∧ 0 < (mkInsertRouteResponse uid svc s1 s2).node2Rows := by
  refine ⟨?_, h1, h2⟩
  simp [mkInsertRouteResponse, h1]

/-- C8 witness: the amended statement at the concrete anomalous input
(counts 1 and 1). -/
theorem dual_nonzero_counts_surfaced_witness :
    (mkInsertRouteResponse "user-42" "frontend" 1 1).actualShard = node1Name
    ∧ 0 < (mkInsertRouteResponse "user-42" "frontend" 1 1).node1Rows
    ∧ 0 < (mkInsertRouteResponse "user-42" "frontend" 1 1).node2Rows :=
  dual_nonzero_counts_surfaced "user-42" "frontend" 1 1 (by decide) (by decide)

/-- C9 counterexample: with the 200 ms budget of the spec's own test and
even instantaneous network operations, the replicate-demo invocation
lasts 1500 ms — the fixed sleep alone exceeds the budget, so the
operation does not return within the given timeout. -/
theorem fixed_wait_exceeds_200ms_budget :
    ¬ (replicateDemoElapsedMs 0 0 0 ≤ 200) := by
  decide

/-- C9 (amended): the handler has no timeout parameter; it always sleeps
exactly 1500 ms between the before-check and the after-check, so any
bound that its elapsed time satisfies is at least 1500 ms, whatever the
durations of the insert and the two count queries. -/
theorem elapsed_lower_bound_1500
    (dInsert dBefore dAfter t : Nat)
    (h : replicateDemoElapsedMs dInsert dBefore dAfter ≤ t) :
    1500 ≤ t := by
  unfold replicateDemoElapsedMs at h
  omega

/-- C9 witness: even with instantaneous network operations the elapsed
time of a replicate-demo invocation is at least 1500 ms. -/
theorem elapsed_lower_bound_1500_witness : 1500 ≤ replicateDemoElapsedMs 0 0 0 :=
  elapsed_lower_bound_1500 0 0 0 (replicateDemoElapsedMs 0 0 0) (by decide)

/-- C10: through a fully successful run, the reported actual shard is
node1 exactly when node1's observed count is positive and node2 in every
other case; in particular both counts zero is reported as node2, not as
an unknown state. -/
theorem actual_shard_selection :
    ∀ (uid svc : String) (nowMs randSample s1 s2 : Nat),
      insertAndRouteHandler (some uid) (some svc) nowMs randSample
          (fun _ => .ok ()) (.ok s1) (.ok s2)
        = .ok (mkInsertRouteResponse uid svc s1 s2)
      ∧ ((mkInsertRouteResponse uid svc s1 s2).actualShard = node1Name ↔ 0 < s1)
      ∧ ((mkInsertRouteResponse uid svc s1 s2).actualShard = node2Name ↔ s1 = 0)
      ∧ (mkInsertRouteResponse uid svc 0 0).actualShard = node2Name := by
  intro uid svc nowMs randSample s1 s2
  refine ⟨rfl, ?_, ?_, rfl⟩
  · by_cases h : 0 < s1
    · simp [mkInsertRouteResponse, h]
    · simp only [mkInsertRouteResponse, if_neg h]
      constructor
      · intro habs
        exact absurd habs (by decide)
      · intro h0
        exact absurd h0 h
  · by_cases h : 0 < s1
    · simp only [mkInsertRouteResponse, if_pos h]
      constructor
      · intro habs
        exact absurd habs (by decide)
      · intro h0
        omega
    · have h0 : s1 = 0 := by omega
      simp [mkInsertRouteResponse, h, h0]

end ClickhouseZeroHero
